import Mathlib

set_option autoImplicit false

/-
Verification development for the AI-agent-framework workflow engine.

Shallow embedding of the Python sources:
  src/agent/flow.py        (Task, TaskResult, SequentialStrategy, DAGStrategy, TaskFlow)
  src/tools/tool_registry.py (Tool, ToolResult, ToolRegistry)
  src/agent/memory.py      (MemoryEntry, Memory)
  src/agent/controller.py  (AgentController.execute_workflow)

Python dicts are modelled as insertion-ordered association lists with an
overwriting insert; Python exceptions as an explicit `Except PyError`;
wall-clock measurements (latency, timestamps) as explicit parameters.
-/

namespace Agent

/-- Python runtime values, as far as the workflow engine inspects them. -/
inductive PyVal where
  | vNone
  | vStr (s : String)
  | vNat (n : Nat)
  | vBool (b : Bool)
  deriving DecidableEq, Repr

/-- Python exceptions raised by the embedded code. -/
inductive PyError where
  | notImplementedError (msg : String)
  | attributeError (attr : String)
  deriving DecidableEq, Repr

/-- A Python dict (string keys), modelled as an insertion-ordered
association list.  Real dicts have unique keys; lookups take the first
match, and `dictInsert` below rewrites every occurrence of a key. -/
abbrev Ctx : Type := List (String × PyVal)

/-- Lookup in a dict: the first binding of the key, as in `d[k]` / `k in d`. -/
def dictLookup (d : Ctx) (k : String) : Option PyVal :=
  List.lookup k d

/-- Python dict assignment `d[k] = v`: if the key is present its binding is
overwritten in place, otherwise the pair is appended at the end. -/
def dictInsert (d : Ctx) (k : String) (v : PyVal) : Ctx :=
  if d.any (fun p => p.1 == k) then
    d.map (fun p => if p.1 == k then (k, v) else p)
  else
    d ++ [(k, v)]

/-- Python `\x7b**a, **b\x7d`: start from `a`, then assign each binding of
`b` in order, so bindings of `b` win on key collision. -/
def dictMerge (a b : Ctx) : Ctx :=
  b.foldl (fun d p => dictInsert d p.1 p.2) a

/-- Task dataclass of src/agent/flow.py (after `__post_init__` has replaced
`None` params and dependencies with empty containers). -/
structure Task where
  id : String
  action : String
  params : Ctx
  dependencies : List String
  on_success : Option String
  on_failure : Option String
  deriving DecidableEq, Repr

/-- Constructing a `Task(id, action, params, dependencies)`: the dataclass
generates field assignment, then `__post_init__` defaults `params` and
`dependencies` when they are `None`.  No step of the constructor raises,
so the result is always `Except.ok`. -/
def Task.make (id action : String) (params : Option Ctx)
    (dependencies : Option (List String)) : Except PyError Task :=
  Except.ok
    { id := id
      action := action
      params := params.getD []
      dependencies := dependencies.getD []
      on_success := none
      on_failure := none }

/-- TaskResult of src/agent/flow.py.  Python defaults: `output = None`,
`error = None`. -/
structure TaskResult where
  task_id : String
  success : Bool
  output : PyVal
  error : Option String
  deriving DecidableEq, Repr

/-- The `controller.execute(action, params)` callback handed to a strategy
(`AgentController.execute` in src/agent/flow.py): it always returns a
`TaskResult`. -/
abbrev Executor : Type := String → Ctx → TaskResult

/-- SequentialStrategy.execute of src/agent/flow.py, with the mutable
`context` dict threaded explicitly.  For each task: merge context with the
task params (task params win), call the controller, overwrite the result's
`task_id` with the task id, append the result, assign
`context[f"<id>_output"] = result.output`, and stop after the first
failed task. -/
def SequentialStrategy.execute (ex : Executor) :
    List Task → Ctx → List TaskResult × Ctx
  | [], context => ([], context)
  | task :: rest, context =>
    let params := dictMerge context task.params
    let result0 := ex task.action params
    let result := { result0 with task_id := task.id }
    let context1 := dictInsert context (task.id ++ "_output") result.output
    if result.success then
      let tail := SequentialStrategy.execute ex rest context1
      (result :: tail.1, tail.2)
    else
      ([result], context1)

/-- Instrumentation of `SequentialStrategy.execute`: the sequence of
`(action, params)` argument pairs the strategy passes to the controller,
one per invocation, in order. -/
def seqInvocations (ex : Executor) :
    List Task → Ctx → List (String × Ctx)
  | [], _ => []
  | task :: rest, context =>
    let params := dictMerge context task.params
    let result0 := ex task.action params
    let result := { result0 with task_id := task.id }
    let context1 := dictInsert context (task.id ++ "_output") result.output
    if result.success then
      (task.action, params) :: seqInvocations ex rest context1
    else
      [(task.action, params)]

/-- The context dict as it stands when the strategy is about to run the
step with index `n` (so `seqCtxAt ex tasks ctx 0 = ctx`).  Past the end of
the run it stays at its final value. -/
def seqCtxAt (ex : Executor) :
    List Task → Ctx → Nat → Ctx
  | _, context, 0 => context
  | [], context, _ + 1 => context
  | task :: rest, context, n + 1 =>
    let params := dictMerge context task.params
    let result0 := ex task.action params
    let result := { result0 with task_id := task.id }
    let context1 := dictInsert context (task.id ++ "_output") result.output
    if result.success then
      seqCtxAt ex rest context1 n
    else
      context1

/-- DAGStrategy.execute of src/agent/flow.py: the body is a single
`raise NotImplementedError(...)`. -/
def DAGStrategy.execute (_tasks : List Task) (_ex : Executor) (_context : Ctx) :
    Except PyError (List TaskResult × Ctx) :=
  Except.error (PyError.notImplementedError "DAG execution will be implemented in future")

/-- StateMachineStrategy.execute of src/agent/flow.py: also a bare
`raise NotImplementedError(...)`. -/
def StateMachineStrategy.execute (_tasks : List Task) (_ex : Executor) (_context : Ctx) :
    Except PyError (List TaskResult × Ctx) :=
  Except.error (PyError.notImplementedError "State machine execution will be implemented in future")

/-- ExecutionMode enum of src/agent/flow.py. -/
inductive ExecutionMode where
  | sequential
  | dag
  | state_machine
  deriving DecidableEq, Repr

/-- Dispatch through the `self.strategies` dict of TaskFlow: mode to
strategy object, then its `execute`.  The sequential strategy never
raises, the other two always do. -/
def strategyExecute (mode : ExecutionMode) (tasks : List Task) (ex : Executor)
    (context : Ctx) : Except PyError (List TaskResult × Ctx) :=
  match mode with
  | ExecutionMode.sequential => Except.ok (SequentialStrategy.execute ex tasks context)
  | ExecutionMode.dag => DAGStrategy.execute tasks ex context
  | ExecutionMode.state_machine => StateMachineStrategy.execute tasks ex context

/-! ## Tool registry (src/tools/tool_registry.py) -/

/-- ToolType enum of src/tools/tool_registry.py. -/
inductive ToolType where
  | web
  | file
  | data
  | ml_inference
  | system
  deriving DecidableEq, Repr

/-- Tool dataclass of src/tools/tool_registry.py.  The handler is a Python
callable that may raise: modelled as `Ctx → Except String PyVal`, where an
`Except.error` is a raised exception whose `str(e)` is the payload. -/
structure Tool where
  name : String
  ttype : ToolType
  description : String
  handler : Ctx → Except String PyVal
  keywords : List String
  required_params : List String
  metadata : Ctx

/-- ToolResult of src/tools/tool_registry.py.  Python defaults:
`output = None`, `error = None`, `latency_ms = 0.0`; latency is modelled
as a natural number of milliseconds. -/
structure ToolResult where
  tool_name : String
  success : Bool
  output : PyVal
  error : Option String
  latency_ms : Nat
  deriving DecidableEq, Repr

/-- One element of `ToolRegistry.usage_history`, as built by `_log_usage`. -/
structure UsageEntry where
  tool : String
  success : Bool
  latency_ms : Nat
  intel_optimized : Bool
  timestamp : Nat
  deriving DecidableEq, Repr

/-- ToolRegistry state: the `tools` dict and the rolling `usage_history`. -/
structure ToolRegistry where
  tools : List (String × Tool)
  usage_history : List UsageEntry

/-- Python repr of a list of strings, as interpolated by
`f"Missing params: <missing>"` (e.g. `[\x27a\x27, \x27b\x27]`). -/
def pyListRepr (xs : List String) : String :=
  "[" ++ String.intercalate ", " (xs.map (fun s => "\x27" ++ s ++ "\x27")) ++ "]"

/-- Truthiness of `metadata.get("optimized", False)` in `_log_usage`. -/
def metadataOptimized (metadata : Ctx) : Bool :=
  match dictLookup metadata "optimized" with
  | some (PyVal.vBool b) => b
  | some PyVal.vNone => false
  | some _ => true
  | none => false

/-- ToolRegistry._log_usage: append one entry to `usage_history` carrying
the tool name, success flag and latency of the result (logging calls have
no modelled effect). -/
def ToolRegistry.log_usage (self : ToolRegistry) (result : ToolResult)
    (metadata : Ctx) (now : Nat) : ToolRegistry :=
  { self with
      usage_history := self.usage_history ++
        [{ tool := result.tool_name
           success := result.success
           latency_ms := result.latency_ms
           intel_optimized := metadataOptimized metadata
           timestamp := now }] }

/-- ToolRegistry.execute of src/tools/tool_registry.py.  `latency` stands
for the measured `(time.perf_counter() - start_time) * 1000` and `now` for
`time.time()` in the usage entry; both are explicit parameters because the
embedding has no clock.  Returns the ToolResult together with the updated
registry state.  Unknown tool and missing-params failures return early,
before the latency benchmark and before `_log_usage`. -/
def ToolRegistry.execute (self : ToolRegistry) (tool_name : String)
    (params : Ctx) (latency : Nat) (now : Nat) : ToolResult × ToolRegistry :=
  match List.lookup tool_name self.tools with
  | none =>
    ({ tool_name := tool_name
       success := false
       output := PyVal.vNone
       error := some ("Tool " ++ tool_name ++ " not found")
       latency_ms := 0 }, self)
  | some tool =>
    let missing := tool.required_params.filter (fun p => (dictLookup params p).isNone)
    if missing ≠ [] then
      ({ tool_name := tool_name
         success := false
         output := PyVal.vNone
         error := some ("Missing params: " ++ pyListRepr missing)
         latency_ms := 0 }, self)
    else
      match tool.handler params with
      | Except.ok output =>
        let result : ToolResult :=
          { tool_name := tool_name
            success := true
            output := output
            error := none
            latency_ms := latency }
        (result, self.log_usage result tool.metadata now)
      | Except.error e =>
        let result : ToolResult :=
          { tool_name := tool_name
            success := false
            output := PyVal.vNone
            error := some e
            latency_ms := latency }
        (result, self.log_usage result tool.metadata now)

/-! ## Audit memory (src/agent/memory.py) -/

/-- MemoryEntry dataclass of src/agent/memory.py.  `result` is `Optional`;
`none` is Python `None`.  The timestamp (`datetime.now().isoformat()`) is
an explicit parameter of `Memory.record`. -/
structure MemoryEntry where
  session_id : String
  task_id : String
  action : String
  status : String
  result : Option PyVal
  error : Option String
  timestamp : Nat
  metadata : Ctx
  deriving DecidableEq, Repr

/-- Memory of src/agent/memory.py: the in-memory cache `self.entries`.
The sqlite mirror written by `_persist_to_disk` receives exactly the same
records and is never read back by the code under specification, so only
the in-memory index is modelled. -/
structure Memory where
  entries : List MemoryEntry
  deriving DecidableEq, Repr

/-- Memory.record: build a MemoryEntry, append it to `self.entries`
(and persist it), and return it. -/
def Memory.record (self : Memory) (session_id task_id action status : String)
    (result : Option PyVal) (error : Option String) (ts : Nat)
    (metadata : Ctx) : Memory × MemoryEntry :=
  let entry : MemoryEntry :=
    { session_id := session_id
      task_id := task_id
      action := action
      status := status
      result := result
      error := error
      timestamp := ts
      metadata := metadata }
  ({ entries := self.entries ++ [entry] }, entry)

/-- Memory.get_session_history: the entries whose `session_id` matches. -/
def Memory.get_session_history (self : Memory) (session_id : String) :
    List MemoryEntry :=
  self.entries.filter (fun e => e.session_id == session_id)

/-- Memory.get_session_context: the dict comprehension
`\x7bentry.task_id: entry.result for entry in history if entry.result is not None\x7d`,
built left to right with overwriting insertion. -/
def Memory.get_session_context (self : Memory) (session_id : String) : Ctx :=
  (self.get_session_history session_id).foldl
    (fun d e =>
      match e.result with
      | some v => dictInsert d e.task_id v
      | none => d)
    []

/-- Memory.initialize_session (compatibility layer): records a
`session_start` entry with the initial input as result. -/
def Memory.init_session (self : Memory) (session_id : String)
    (initial_input : PyVal) (ts : Nat) : Memory :=
  (self.record session_id "session_start" "input" "started"
    (some initial_input) none ts []).1

/-- Memory.close_session: records a `session_end` entry with the final
output as result. -/
def Memory.close_session (self : Memory) (session_id : String)
    (final_output : PyVal) (ts : Nat) : Memory :=
  (self.record session_id "session_end" "output" "completed"
    (some final_output) none ts []).1

/-! ## TaskFlow (src/agent/flow.py), with explicit dict aliasing

To state the frame property of `TaskFlow.execute` (the flow's stored
context dict is not mutated because `self.context.copy()` is passed to the
strategy), dicts reachable from a flow live in a small heap of dict cells
and the flow holds a reference. -/

/-- A heap of Python dict objects, addressed by allocation index. -/
structure Heap where
  dicts : List Ctx
  deriving DecidableEq, Repr

/-- Read the dict stored in cell `r`. -/
def Heap.get (h : Heap) (r : Nat) : Ctx :=
  h.dicts.getD r []

/-- Overwrite the dict stored in cell `r` (in-place mutation of the
object). -/
def Heap.set (h : Heap) (r : Nat) (c : Ctx) : Heap :=
  { dicts := h.dicts.set r c }

/-- Allocate a fresh dict object holding `c`; `dict.copy()` is
an allocation initialised with the contents of the source dict. -/
def Heap.alloc (h : Heap) (c : Ctx) : Heap × Nat :=
  ({ dicts := h.dicts ++ [c] }, h.dicts.length)

/-- TaskFlow of src/agent/flow.py: mode, task list, and a reference to the
stored context dict (`self.context`). -/
structure TaskFlow where
  mode : ExecutionMode
  tasks : List Task
  contextRef : Nat
  deriving DecidableEq, Repr

/-- TaskFlow.execute: look up the strategy for `self.mode` and run it on
`self.tasks` with `self.context.copy()`.  The copy is a freshly allocated
cell; all in-place mutation the strategy performs on its `context`
parameter lands in that cell, and its final contents are written back
there.  Raises whatever the strategy raises. -/
def TaskFlow.execute (self : TaskFlow) (ex : Executor) (h : Heap) :
    Except PyError (List TaskResult) × Heap :=
  let copied := h.alloc (h.get self.contextRef)
  let h1 := copied.1
  let r := copied.2
  match strategyExecute self.mode self.tasks ex (h1.get r) with
  | Except.ok results => (Except.ok results.1, h1.set r results.2)
  | Except.error e => (Except.error e, h1)

/-! ## Orchestration controller (src/agent/controller.py)

`AgentController.execute_workflow` is written against task and flow objects
with attributes `name`, `tool_name`, `args` and `depends_on`.  The
repository's `TaskFlow` and `Task` (src/agent/flow.py, the annotated
parameter type and the objects `planner.prepare_steps` passes through)
define no such attributes, so those accesses are modelled through an
explicit attribute table and raise `AttributeError`. -/

/-- Attributes a src/agent/flow.py `TaskFlow` instance owns after
`__init__`. -/
def taskFlowAttrNames : List String :=
  ["mode", "tasks", "context", "strategies"]

/-- Attributes a src/agent/flow.py `Task` instance owns (its dataclass
fields). -/
def taskAttrNames : List String :=
  ["id", "action", "params", "dependencies", "on_success", "on_failure"]

/-- Python attribute access `obj.attr` against a table of owned attribute
names: absent attributes raise `AttributeError`. -/
def pyCheckAttr (attrs : List String) (a : String) : Except PyError Unit :=
  if attrs.contains a then Except.ok () else Except.error (PyError.attributeError a)

/-- AgentController._check_dependencies: `for dep in task.depends_on` reads
the `depends_on` attribute first.  A src/agent/flow.py `Task` never owns
it, so on repository tasks the loop body is unreachable and the access
raises; the `Except.ok true` branch is dead code kept for shape. -/
def AgentController.check_dependencies (task : Task) : Except PyError Bool :=
  match pyCheckAttr taskAttrNames "depends_on" with
  | Except.error e => Except.error e
  | Except.ok _ => Except.ok (task.dependencies.all (fun _ => true))

/-- AgentController._run_task_unit: the routing log line reads `task.name`
and `task.tool_name` before the `try` block, so on repository tasks it
raises before any tool call; the remainder (context injection, tool call,
step logging) is unreachable on such tasks and is modelled as its observable
skeleton. -/
def AgentController.run_task_unit (mem : Memory) (session_id : String)
    (_task : Task) : Except PyError (Ctx × Memory) :=
  match pyCheckAttr taskAttrNames "name" with
  | Except.error e => Except.error e
  | Except.ok _ =>
    let _context := mem.get_session_context session_id
    Except.ok ([("status", PyVal.vStr "success")], mem)

/-- The execution loop of AgentController.execute_workflow (step 3): for
each planned task, check dependencies (break when blocked), run the task
unit, and break when its status is an error. -/
def AgentController.run_loop (mem : Memory) (session_id : String) :
    List Task → Except PyError Memory
  | [] => Except.ok mem
  | task :: rest =>
    match AgentController.check_dependencies task with
    | Except.error e => Except.error e
    | Except.ok ok =>
      if ok then
        match AgentController.run_task_unit mem session_id task with
        | Except.error e => Except.error e
        | Except.ok out =>
          if dictLookup out.1 "status" == some (PyVal.vStr "error") then
            Except.ok out.2
          else
            AgentController.run_loop out.2 session_id rest
      else
        Except.ok mem

/-- The structured value `execute_workflow` returns. -/
structure WorkflowResult where
  session_id : String
  status : String
  output : String
  deriving DecidableEq, Repr

/-- AgentController.execute_workflow of src/agent/controller.py.
`session_id` stands for the generated `uuid.uuid4()`, `ts` for the record
timestamps, and `synthesize` for the external `self.llm.synthesize`
collaborator.  The opening log line interpolates `workflow.name`; the
repository `TaskFlow` owns no `name` attribute, so that access is the
first evaluated expression that can raise. -/
def AgentController.execute_workflow (mem : Memory)
    (synthesize : String → String) (session_id : String) (ts : Nat)
    (workflow : TaskFlow) (initial_input : String) :
    Except PyError (WorkflowResult × Memory) :=
  match pyCheckAttr taskFlowAttrNames "name" with
  | Except.error e => Except.error e
  | Except.ok _ =>
    let mem1 := mem.init_session session_id (PyVal.vStr initial_input) ts
    let plan := workflow.tasks
    match AgentController.run_loop mem1 session_id plan with
    | Except.error e => Except.error e
    | Except.ok mem2 =>
      let final := synthesize initial_input
      let mem3 := mem2.close_session session_id (PyVal.vStr final) ts
      Except.ok
        ({ session_id := session_id
           status := "completed"
           output := final }, mem3)

/-- Specification-side description of context retrieval (§4.4 of the
spec): the value of the last record for `id` whose result is non-null;
`none` when every record for `id` has a null result or none exists.  Used
to compare `Memory.get_session_context` against the spec's words. -/
def lastResultFor : List MemoryEntry → String → Option PyVal
  | [], _ => none
  | e :: rest, id =>
    match lastResultFor rest id with
    | some v => some v
    | none => if e.task_id == id then e.result else none

/-! ## Dictionary lemmas -/

theorem lookup_map_overwrite_self (d : Ctx) (k : String) (v : PyVal)
    (hany : d.any (fun p => p.1 == k) = true) :
    List.lookup k (d.map (fun p => if p.1 == k then (k, v) else p)) = some v := by
  induction d with
  | nil => simp at hany
  | cons q rest ih =>
    obtain ⟨qk, qv⟩ := q
    cases hq : (qk == k) with
    | true =>
      simp only [List.map_cons, hq, if_true, List.lookup_cons_self]
    | false =>
      have hrest : rest.any (fun p => p.1 == k) = true := by
        simpa [List.any_cons, hq] using hany
      have hkq : (k == qk) = false := by
        have h1 : qk ≠ k := by simpa using hq
        simpa using fun hc => h1 hc.symm
      simp only [List.map_cons, hq, Bool.false_eq_true, if_false, List.lookup_cons, hkq]
      exact ih hrest

theorem lookup_append_single_self (d : Ctx) (k : String) (v : PyVal)
    (hany : d.any (fun p => p.1 == k) = false) :
    List.lookup k (d ++ [(k, v)]) = some v := by
  induction d with
  | nil => simp
  | cons q rest ih =>
    obtain ⟨qk, qv⟩ := q
    have hq : (qk == k) = false := by
      cases hc : (qk == k) with
      | true => simp [List.any_cons, hc] at hany
      | false => rfl
    have hrest : rest.any (fun p => p.1 == k) = false := by
      cases hc : rest.any (fun p => p.1 == k) with
      | true => simp [List.any_cons, hc] at hany
      | false => rfl
    have hkq : (k == qk) = false := by
      have h1 : qk ≠ k := by simpa using hq
      simpa using fun hc => h1 hc.symm
    simpa only [List.cons_append, List.lookup_cons, hkq] using ih hrest

theorem lookup_map_overwrite_ne (d : Ctx) (k k2 : String) (v : PyVal)
    (hne : k2 ≠ k) :
    List.lookup k2 (d.map (fun p => if p.1 == k then (k, v) else p))
      = List.lookup k2 d := by
  induction d with
  | nil => rfl
  | cons q rest ih =>
    obtain ⟨qk, qv⟩ := q
    cases hq : (qk == k) with
    | true =>
      have hqk : qk = k := by simpa using hq
      have h2 : (k2 == qk) = false := by simpa [hqk] using hne
      have h2k : (k2 == k) = false := by simpa using hne
      simp only [List.map_cons, hq, if_true, List.lookup_cons, h2, h2k]
      exact ih
    | false =>
      cases h2 : (k2 == qk) with
      | true =>
        simp only [List.map_cons, hq, Bool.false_eq_true, if_false,
          List.lookup_cons, h2]
      | false =>
        simp only [List.map_cons, hq, Bool.false_eq_true, if_false,
          List.lookup_cons, h2]
        exact ih

theorem lookup_append_single_ne (d : Ctx) (k k2 : String) (v : PyVal)
    (hne : k2 ≠ k) :
    List.lookup k2 (d ++ [(k, v)]) = List.lookup k2 d := by
  induction d with
  | nil =>
    have h2k : (k2 == k) = false := by simpa using hne
    simp [List.lookup_cons, h2k]
  | cons q rest ih =>
    obtain ⟨qk, qv⟩ := q
    cases h2 : (k2 == qk) with
    | true => simp only [List.cons_append, List.lookup_cons, h2]
    | false =>
      simp only [List.cons_append, List.lookup_cons, h2]
      exact ih

theorem dictLookup_dictInsert_self (d : Ctx) (k : String) (v : PyVal) :
    dictLookup (dictInsert d k v) k = some v := by
  unfold dictLookup dictInsert
  cases hany : d.any (fun p => p.1 == k) with
  | true =>
    simp only [hany, if_true]
    exact lookup_map_overwrite_self d k v hany
  | false =>
    simp only [hany, Bool.false_eq_true, if_false]
    exact lookup_append_single_self d k v hany

theorem dictLookup_dictInsert_ne (d : Ctx) (k k2 : String) (v : PyVal)
    (hne : k2 ≠ k) : dictLookup (dictInsert d k v) k2 = dictLookup d k2 := by
  unfold dictLookup dictInsert
  cases hany : d.any (fun p => p.1 == k) with
  | true =>
    simp only [hany, if_true]
    exact lookup_map_overwrite_ne d k k2 v hne
  | false =>
    simp only [hany, Bool.false_eq_true, if_false]
    exact lookup_append_single_ne d k k2 v hne

theorem dictMerge_cons_right (a : Ctx) (q : String × PyVal) (rest : Ctx) :
    dictMerge a (q :: rest) = dictMerge (dictInsert a q.1 q.2) rest := rfl

theorem dictMerge_lookup_not_mem (b : Ctx) (a : Ctx) (k : String)
    (h : ∀ p ∈ b, p.1 ≠ k) :
    dictLookup (dictMerge a b) k = dictLookup a k := by
  induction b generalizing a with
  | nil => rfl
  | cons q rest ih =>
    rw [dictMerge_cons_right, ih (dictInsert a q.1 q.2)
        (fun p hp => h p (List.mem_cons_of_mem q hp)),
      dictLookup_dictInsert_ne a q.1 k q.2
        (fun hc => h q (List.mem_cons_self q rest) hc.symm)]

theorem dictMerge_lookup_right (b : Ctx) (a : Ctx) (k : String) (v : PyVal)
    (hnd : (b.map Prod.fst).Nodup) (h : dictLookup b k = some v) :
    dictLookup (dictMerge a b) k = some v := by
  induction b generalizing a with
  | nil => simp [dictLookup] at h
  | cons q rest ih =>
    obtain ⟨qk, qv⟩ := q
    have hnd' : qk ∉ rest.map Prod.fst ∧ (rest.map Prod.fst).Nodup := by
      simpa [List.nodup_cons] using hnd
    by_cases hq : k = qk
    · have hv : qv = v := by
        have hb : (k == qk) = true := by simpa using hq
        simpa [dictLookup, List.lookup_cons, hb] using h
      have hnotin : ∀ p ∈ rest, p.1 ≠ k := by
        intro p hp hc
        apply hnd'.1
        rw [← hq, ← hc]
        exact List.mem_map_of_mem Prod.fst hp
      rw [dictMerge_cons_right, dictMerge_lookup_not_mem rest _ k hnotin]
      subst hq
      rw [← hv]
      exact dictLookup_dictInsert_self a k qv
    · have hq' : (k == qk) = false := by simpa using hq
      have hrest : dictLookup rest k = some v := by
        simpa [dictLookup, List.lookup_cons, hq'] using h
      rw [dictMerge_cons_right]
      exact ih (dictInsert a qk qv) hnd'.2 hrest

/-! ## Sequential strategy lemmas -/

theorem seq_characterization (ex : Executor) (tasks : List Task) (ctx : Ctx) :
    (SequentialStrategy.execute ex tasks ctx).1.length ≤ tasks.length ∧
    (seqInvocations ex tasks ctx).length
      = (SequentialStrategy.execute ex tasks ctx).1.length ∧
    (SequentialStrategy.execute ex tasks ctx).1.map TaskResult.task_id
      = (tasks.take (SequentialStrategy.execute ex tasks ctx).1.length).map Task.id ∧
    (seqInvocations ex tasks ctx).map Prod.fst
      = (tasks.take (SequentialStrategy.execute ex tasks ctx).1.length).map Task.action := by
  induction tasks generalizing ctx with
  | nil => simp [SequentialStrategy.execute, seqInvocations]
  | cons task rest ih =>
    simp only [SequentialStrategy.execute, seqInvocations]
    cases hs : (ex task.action (dictMerge ctx task.params)).success with
    | true =>
      have ih1 := ih (dictInsert ctx (task.id ++ "_output")
        (ex task.action (dictMerge ctx task.params)).output)
      simp only [hs, if_true, List.length_cons, List.map_cons, List.take_succ_cons]
      refine ⟨Nat.succ_le_succ ih1.1, by rw [ih1.2.1], ?_, ?_⟩
      · simp only [List.map_cons, List.cons.injEq]
        exact ⟨trivial, ih1.2.2.1⟩
      · simp only [ih1.2.1, List.map_cons, List.cons.injEq]
        exact ⟨trivial, ih1.2.2.2⟩
    | false =>
      simp [hs]

theorem seq_inv_get (ex : Executor) (tasks : List Task) (ctx : Ctx) (i : Nat)
    (h : i < (seqInvocations ex tasks ctx).length) (h2 : i < tasks.length) :
    (seqInvocations ex tasks ctx).get ⟨i, h⟩
      = ((tasks.get ⟨i, h2⟩).action,
         dictMerge (seqCtxAt ex tasks ctx i) (tasks.get ⟨i, h2⟩).params) := by
  induction tasks generalizing ctx i with
  | nil => simp at h2
  | cons task rest ih =>
    cases i with
    | zero =>
      cases hs : (ex task.action (dictMerge ctx task.params)).success with
      | true => simp [seqInvocations, seqCtxAt, hs]
      | false => simp [seqInvocations, seqCtxAt, hs]
    | succ i =>
      cases hs : (ex task.action (dictMerge ctx task.params)).success with
      | true =>
        have h' : i < (seqInvocations ex rest (dictInsert ctx (task.id ++ "_output")
            (ex task.action (dictMerge ctx task.params)).output)).length := by
          have hlen := h
          simp only [seqInvocations, hs, if_true, List.length_cons] at hlen
          exact Nat.lt_of_succ_lt_succ hlen
        have h2' : i < rest.length := Nat.lt_of_succ_lt_succ h2
        have := ih (dictInsert ctx (task.id ++ "_output")
          (ex task.action (dictMerge ctx task.params)).output) i h' h2'
        simpa [seqInvocations, seqCtxAt, hs] using this
      | false =>
        exfalso
        have hlen := h
        simp [seqInvocations, hs] at hlen

theorem seq_ctx_step (ex : Executor) (tasks : List Task) (ctx : Ctx) (i : Nat)
    (hr : i < ((SequentialStrategy.execute ex tasks ctx).1).length)
    (h2 : i < tasks.length) :
    seqCtxAt ex tasks ctx (i + 1)
      = dictInsert (seqCtxAt ex tasks ctx i)
          ((tasks.get ⟨i, h2⟩).id ++ "_output")
          (((SequentialStrategy.execute ex tasks ctx).1).get ⟨i, hr⟩).output := by
  induction tasks generalizing ctx i with
  | nil => simp at h2
  | cons task rest ih =>
    cases i with
    | zero =>
      cases hs : (ex task.action (dictMerge ctx task.params)).success with
      | true => simp [SequentialStrategy.execute, seqCtxAt, hs]
      | false => simp [SequentialStrategy.execute, seqCtxAt, hs]
    | succ i =>
      cases hs : (ex task.action (dictMerge ctx task.params)).success with
      | true =>
        have hr' : i < ((SequentialStrategy.execute ex rest (dictInsert ctx
            (task.id ++ "_output")
            (ex task.action (dictMerge ctx task.params)).output)).1).length := by
          have hlen := hr
          simp only [SequentialStrategy.execute, hs, if_true, List.length_cons] at hlen
          exact Nat.lt_of_succ_lt_succ hlen
        have h2' : i < rest.length := Nat.lt_of_succ_lt_succ h2
        have := ih (dictInsert ctx (task.id ++ "_output")
          (ex task.action (dictMerge ctx task.params)).output) i hr' h2'
        simpa [SequentialStrategy.execute, seqCtxAt, hs] using this
      | false =>
        exfalso
        have hlen := hr
        simp [SequentialStrategy.execute, hs] at hlen

/-! ## Heap lemmas -/

theorem heap_get_alloc_self (h : Heap) (c : Ctx) :
    (h.alloc c).1.get (h.alloc c).2 = c := by
  simp [Heap.alloc, Heap.get, List.getD, List.getElem?_concat_length]

theorem heap_get_alloc_lt (h : Heap) (c : Ctx) (r : Nat)
    (hr : r < h.dicts.length) :
    (h.alloc c).1.get r = h.get r := by
  simp [Heap.alloc, Heap.get, List.getD, List.getElem?_append_left hr]

theorem heap_get_set_ne (h : Heap) (r r2 : Nat) (c : Ctx) (hne : r2 ≠ r) :
    (h.set r c).get r2 = h.get r2 := by
  simp [Heap.set, Heap.get, List.getD, List.getElem?_set_ne (fun hc => hne hc.symm)]

/-- The results component of `TaskFlow.execute` depends on the heap only
through the flow's stored context dict. -/
theorem taskFlow_execute_results (f : TaskFlow) (ex : Executor) (h : Heap) :
    (f.execute ex h).1
      = (match strategyExecute f.mode f.tasks ex (h.get f.contextRef) with
         | Except.ok results => Except.ok results.1
         | Except.error e => Except.error e) := by
  show (match strategyExecute f.mode f.tasks ex
      ((h.alloc (h.get f.contextRef)).1.get (h.alloc (h.get f.contextRef)).2) with
    | Except.ok results =>
      ((Except.ok results.1 : Except PyError (List TaskResult)),
        (h.alloc (h.get f.contextRef)).1.set (h.alloc (h.get f.contextRef)).2 results.2)
    | Except.error e => (Except.error e, (h.alloc (h.get f.contextRef)).1)).1
    = _
  rw [heap_get_alloc_self]
  cases strategyExecute f.mode f.tasks ex (h.get f.contextRef) with
  | ok results => rfl
  | error e => rfl

/-! ## Memory lemmas -/

theorem dictLookup_foldl_record (hist : List MemoryEntry) (d : Ctx) (id : String) :
    dictLookup
      (hist.foldl
        (fun d e =>
          match e.result with
          | some v => dictInsert d e.task_id v
          | none => d)
        d) id
      = (match lastResultFor hist id with
         | some v => some v
         | none => dictLookup d id) := by
  induction hist generalizing d with
  | nil => simp [lastResultFor]
  | cons e rest ih =>
    rw [List.foldl_cons, ih]
    cases hlast : lastResultFor rest id with
    | some v => simp [lastResultFor, hlast]
    | none =>
      simp only [lastResultFor, hlast]
      cases hres : e.result with
      | none =>
        cases hid : (e.task_id == id) with
        | true => simp [hid, hres]
        | false => simp [hid, hres]
      | some v =>
        cases hid : (e.task_id == id) with
        | true =>
          have heq : e.task_id = id := by simpa using hid
          subst heq
          simp [hid, hres, dictLookup_dictInsert_self d e.task_id v]
        | false =>
          have hne : id ≠ e.task_id := by
            have h1 : e.task_id ≠ id := by simpa using hid
            exact fun hc => h1 hc.symm
          simp [hid, hres, dictLookup_dictInsert_ne d e.task_id id v hne]

theorem lastResultFor_isSome (hist : List MemoryEntry) (id : String) :
    (lastResultFor hist id).isSome
      ↔ ∃ e ∈ hist, e.task_id = id ∧ e.result.isSome := by
  induction hist with
  | nil => simp [lastResultFor]
  | cons e rest ih =>
    cases hlast : lastResultFor rest id with
    | some v =>
      simp only [lastResultFor, hlast, Option.isSome_some, true_iff]
      obtain ⟨e2, he2, hprop⟩ := ih.mp (by simp [hlast])
      exact ⟨e2, List.mem_cons_of_mem e he2, hprop⟩
    | none =>
      simp only [lastResultFor, hlast]
      rw [hlast] at ih
      simp only [Option.isSome_none, Bool.false_eq_true, false_iff] at ih
      constructor
      · intro hs
        cases hid : (e.task_id == id) with
        | false => simp [hid] at hs
        | true =>
          refine ⟨e, List.mem_cons_self e rest, by simpa using hid, ?_⟩
          simpa [hid] using hs
      · rintro ⟨e2, he2, hid2, hres2⟩
        rcases List.mem_cons.mp he2 with he | he
        · subst he
          simpa [show (e2.task_id == id) = true by simpa using hid2] using hres2
        · exact absurd ⟨e2, he, hid2, hres2⟩ ih

/-! ## Claim C1 — DAG mode -/

/-- Cyclic two-task graph: A depends on B, B depends on A. -/
def c1TaskA : Task :=
  { id := "A", action := "toolA", params := [], dependencies := ["B"],
    on_success := none, on_failure := none }

def c1TaskB : Task :=
  { id := "B", action := "toolB", params := [], dependencies := ["A"],
    on_success := none, on_failure := none }

/-- Claim C1, counterexample: on the cyclic task set A⇄B the DAG strategy
does not return any (empty or partial) result set, and a fortiori reports
no circular-or-missing-dependency condition: its execution is not `ok` for
this concrete input, refuting the claim as stated. -/
theorem c1_counterexample :
    (DAGStrategy.execute [c1TaskA, c1TaskB]
        (fun _ _ => { task_id := "", success := true, output := PyVal.vNone,
                      error := none })
        []).isOk = false := rfl

/-- Claim C1 (amended): for every task set, executor and context, executing
in DAG mode raises `NotImplementedError` ("DAG execution will be implemented
in future").  The strategy therefore halts and never hangs, but it performs
no dependency analysis, reports no circular-or-missing-dependency condition,
and returns no result set, empty or partial. -/
theorem c1_theorem (tasks : List Task) (ex : Executor) (context : Ctx) :
    DAGStrategy.execute tasks ex context
      = Except.error (PyError.notImplementedError
          "DAG execution will be implemented in future") := rfl

/-! ## Claim C2 — sequential short-circuit -/

/-- Claim C2: in Sequential mode, if the k-th task (in declaration order)
is the first to fail — i.e. the run produced exactly k results and the last
one failed — then the result sequence is exactly the results of tasks 1..k
in declaration order (witnessed by their task ids), and the executor was
invoked exactly k times, on the actions of tasks 1..k and on no later
task. -/
theorem c2_theorem (ex : Executor) (tasks : List Task) (ctx : Ctx) (k : Nat)
    (hlen : ((SequentialStrategy.execute ex tasks ctx).1).length = k)
    (hfail : ∃ r, ((SequentialStrategy.execute ex tasks ctx).1).getLast? = some r
      ∧ r.success = false) :
    ((SequentialStrategy.execute ex tasks ctx).1).map TaskResult.task_id
        = (tasks.take k).map Task.id ∧
    (seqInvocations ex tasks ctx).map Prod.fst
        = (tasks.take k).map Task.action ∧
    (seqInvocations ex tasks ctx).length = k := by
  obtain ⟨hle, hinvlen, hids, hacts⟩ := seq_characterization ex tasks ctx
  rw [hlen] at hids hacts hinvlen
  exact ⟨hids, hacts, hinvlen⟩

/-- Claim C2, witness: a three-task flow whose second task fails: the run
returns exactly the two results for tasks t1 and t2, and only their two
actions were invoked. -/
theorem c2_witness :
    ((SequentialStrategy.execute
        (fun action _ => if action == "b" then
          { task_id := "", success := false, output := PyVal.vNone,
            error := some "boom" }
         else
          { task_id := "", success := true, output := PyVal.vStr "ok",
            error := none })
        [{ id := "t1", action := "a", params := [], dependencies := [],
           on_success := none, on_failure := none },
         { id := "t2", action := "b", params := [], dependencies := [],
           on_success := none, on_failure := none },
         { id := "t3", action := "c", params := [], dependencies := [],
           on_success := none, on_failure := none }] []).1).map TaskResult.task_id
        = (([{ id := "t1", action := "a", params := [], dependencies := [],
               on_success := none, on_failure := none },
             { id := "t2", action := "b", params := [], dependencies := [],
               on_success := none, on_failure := none },
             { id := "t3", action := "c", params := [], dependencies := [],
               on_success := none, on_failure := none }] : List Task).take 2).map Task.id ∧
    (seqInvocations
        (fun action _ => if action == "b" then
          { task_id := "", success := false, output := PyVal.vNone,
            error := some "boom" }
         else
          { task_id := "", success := true, output := PyVal.vStr "ok",
            error := none })
        [{ id := "t1", action := "a", params := [], dependencies := [],
           on_success := none, on_failure := none },
         { id := "t2", action := "b", params := [], dependencies := [],
           on_success := none, on_failure := none },
         { id := "t3", action := "c", params := [], dependencies := [],
           on_success := none, on_failure := none }] []).map Prod.fst
        = (([{ id := "t1", action := "a", params := [], dependencies := [],
               on_success := none, on_failure := none },
             { id := "t2", action := "b", params := [], dependencies := [],
               on_success := none, on_failure := none },
             { id := "t3", action := "c", params := [], dependencies := [],
               on_success := none, on_failure := none }] : List Task).take 2).map Task.action ∧
    (seqInvocations
        (fun action _ => if action == "b" then
          { task_id := "", success := false, output := PyVal.vNone,
            error := some "boom" }
         else
          { task_id := "", success := true, output := PyVal.vStr "ok",
            error := none })
        [{ id := "t1", action := "a", params := [], dependencies := [],
           on_success := none, on_failure := none },
         { id := "t2", action := "b", params := [], dependencies := [],
           on_success := none, on_failure := none },
         { id := "t3", action := "c", params := [], dependencies := [],
           on_success := none, on_failure := none }] []).length = 2 :=
  c2_theorem _ _ _ 2 (by decide)
    ⟨{ task_id := "t2", success := false, output := PyVal.vNone,
       error := some "boom" }, by decide, rfl⟩

/-! ## Claim C8 — Task construction -/

/-- Claim C8, counterexample: constructing a Task with an empty id
succeeds — `__post_init__` performs no id validation — refuting the claim
that construction with an empty id fails. -/
theorem c8_counterexample :
    (Task.make "" "analyze" none none).isOk = true := rfl

/-- Claim C8 (amended): Task construction performs no validation at all:
for every id (empty included), action, params and dependencies it succeeds,
only defaulting `None` params and dependencies to empty containers; in
particular neither id non-emptiness nor dependency existence nor
acyclicity is checked at construction time. -/
theorem c8_theorem (id action : String) (params : Option Ctx)
    (dependencies : Option (List String)) :
    Task.make id action params dependencies
      = Except.ok
          { id := id, action := action, params := params.getD [],
            dependencies := dependencies.getD [],
            on_success := none, on_failure := none } := rfl

/-- Claim C8, witness: the amended claim evaluated at the empty id. -/
theorem c8_witness :
    Task.make "" "analyze" none none
      = Except.ok
          { id := "", action := "analyze", params := [], dependencies := [],
            on_success := none, on_failure := none } :=
  c8_theorem "" "analyze" none none

/-! ## Claim C10 — task ids in sequential results -/

/-- Claim C10: the i-th TaskResult returned by the sequential strategy
carries the declared id of the i-th executed task, for every executor —
the strategy overwrites whatever task id the executor put into the result
it returned. -/
theorem c10_theorem (ex : Executor) (tasks : List Task) (ctx : Ctx) (i : Nat)
    (h1 : i < ((SequentialStrategy.execute ex tasks ctx).1).length)
    (h2 : i < tasks.length) :
    (((SequentialStrategy.execute ex tasks ctx).1).get ⟨i, h1⟩).task_id
      = (tasks.get ⟨i, h2⟩).id := by
  have hmap := (seq_characterization ex tasks ctx).2.2.1
  have h := congrArg (fun l => l[i]?) hmap
  simp only [List.getElem?_map, List.getElem?_take_of_lt h1,
    List.getElem?_eq_getElem h1, List.getElem?_eq_getElem h2,
    Option.map_some'] at h
  simpa [List.get_eq_getElem] using Option.some.inj h

/-- Claim C10, witness: a single task t1 run by an executor that writes the
alien task id "zzz" into its result; the returned result nevertheless
carries "t1". -/
theorem c10_witness :
    (((SequentialStrategy.execute
        (fun _ _ => { task_id := "zzz", success := true, output := PyVal.vNone,
                      error := none })
        [{ id := "t1", action := "a", params := [], dependencies := [],
           on_success := none, on_failure := none }] []).1).get
        ⟨0, by decide⟩).task_id
      = (([{ id := "t1", action := "a", params := [], dependencies := [],
             on_success := none, on_failure := none }] : List Task).get
          ⟨0, by decide⟩).id :=
  c10_theorem _ _ _ 0 (by decide) (by decide)

/-! ## Claim C3 — context merge and output publication -/

/-- Claim C3, counterexample: a single task t1 whose execution fails.  The
strategy still assigns `context["t1_output"] = result.output` before
breaking, so after the run the context dict carries the key "t1_output"
(bound to the failed result's `None` output) — publication happened for an
unsuccessful task, refuting the parenthetical "publication happens only
for successful tasks". -/
theorem c3_counterexample :
    dictLookup
      ((SequentialStrategy.execute
          (fun _ _ => { task_id := "", success := false, output := PyVal.vNone,
                        error := some "boom" })
          [{ id := "t1", action := "a", params := [], dependencies := [],
             on_success := none, on_failure := none }] []).2) "t1_output"
      = some PyVal.vNone := rfl

/-- Claim C3 (amended): for every executed task (index i of the run), the
executor receives the merge of the current shared context with the task's
own arguments, where the task's arguments win on key collision (the
Nodup hypothesis says the task's params dict has no duplicate keys, true
of every real Python dict); and after each executed task — successful or
failed alike — the task's output is published into the context under
"<task_id>_output".  Because execution stops at the first failure, only
successful tasks' publications are ever observed by later tasks. -/
theorem c3_theorem (ex : Executor) (tasks : List Task) (ctx : Ctx) (i : Nat)
    (h : i < (seqInvocations ex tasks ctx).length)
    (h2 : i < tasks.length)
    (hr : i < ((SequentialStrategy.execute ex tasks ctx).1).length)
    (hnd : ((tasks.get ⟨i, h2⟩).params.map Prod.fst).Nodup) :
    (seqInvocations ex tasks ctx).get ⟨i, h⟩
      = ((tasks.get ⟨i, h2⟩).action,
         dictMerge (seqCtxAt ex tasks ctx i) (tasks.get ⟨i, h2⟩).params) ∧
    (∀ key v, dictLookup (tasks.get ⟨i, h2⟩).params key = some v →
      dictLookup ((seqInvocations ex tasks ctx).get ⟨i, h⟩).2 key = some v) ∧
    seqCtxAt ex tasks ctx (i + 1)
      = dictInsert (seqCtxAt ex tasks ctx i)
          ((tasks.get ⟨i, h2⟩).id ++ "_output")
          (((SequentialStrategy.execute ex tasks ctx).1).get ⟨i, hr⟩).output := by
  refine ⟨seq_inv_get ex tasks ctx i h h2, ?_, seq_ctx_step ex tasks ctx i hr h2⟩
  intro key v hv
  rw [seq_inv_get ex tasks ctx i h h2]
  exact dictMerge_lookup_right (tasks.get ⟨i, h2⟩).params _ key v hnd hv

/-- Executor used by the C3 witness: always succeeds. -/
def c3Ex : Executor :=
  fun _ _ => { task_id := "", success := true, output := PyVal.vStr "out",
               error := none }

/-- Task list used by the C3 witness: one task whose params carry the
colliding key "x". -/
def c3Tasks : List Task :=
  [{ id := "t1", action := "a", params := [("x", PyVal.vNat 1)],
     dependencies := [], on_success := none, on_failure := none }]

/-- Shared context used by the C3 witness. -/
def c3Ctx : Ctx := [("x", PyVal.vNat 0), ("y", PyVal.vNat 5)]

/-- Claim C3, witness: the invocation the executor receives for the first
task is the merge of the shared context with the task's params. -/
theorem c3_witness :
    (seqInvocations c3Ex c3Tasks c3Ctx).get ⟨0, by decide⟩
      = ((c3Tasks.get ⟨0, by decide⟩).action,
         dictMerge (seqCtxAt c3Ex c3Tasks c3Ctx 0)
           (c3Tasks.get ⟨0, by decide⟩).params) :=
  (c3_theorem c3Ex c3Tasks c3Ctx 0 (by decide) (by decide) (by decide)
    (by decide)).1

/-! ## Claim C4 — tool invocation totality -/

/-- Claim C4: the tool invocation operation is total at its boundary (by
type, `ToolRegistry.execute` always returns a `ToolResult` and the embedded
code raises nothing): an unregistered name yields the failed
tool-not-found result and leaves the registry untouched; absent required
arguments yield the failed missing-params result naming exactly the
missing keys, with a right-hand side that does not mention the handler and
a registry left untouched (the handler is not invoked); an exception `e`
raised by the handler is caught and converted into a failed ToolResult
carrying the error text `e`. -/
theorem c4_theorem (reg : ToolRegistry) (tool_name : String) (params : Ctx)
    (latency now : Nat) :
    (List.lookup tool_name reg.tools = none →
      ToolRegistry.execute reg tool_name params latency now
        = ({ tool_name := tool_name, success := false, output := PyVal.vNone,
             error := some ("Tool " ++ tool_name ++ " not found"),
             latency_ms := 0 }, reg)) ∧
    (∀ tool, List.lookup tool_name reg.tools = some tool →
      tool.required_params.filter (fun p => (dictLookup params p).isNone) ≠ [] →
      ToolRegistry.execute reg tool_name params latency now
        = ({ tool_name := tool_name, success := false, output := PyVal.vNone,
             error := some ("Missing params: " ++ pyListRepr
               (tool.required_params.filter
                 (fun p => (dictLookup params p).isNone))),
             latency_ms := 0 }, reg)) ∧
    (∀ tool e, List.lookup tool_name reg.tools = some tool →
      tool.required_params.filter (fun p => (dictLookup params p).isNone) = [] →
      tool.handler params = Except.error e →
      (ToolRegistry.execute reg tool_name params latency now).1
        = { tool_name := tool_name, success := false, output := PyVal.vNone,
            error := some e, latency_ms := latency }) := by
  refine ⟨?_, ?_, ?_⟩
  · intro hnone
    unfold ToolRegistry.execute
    rw [hnone]
  · intro tool hsome hmiss
    unfold ToolRegistry.execute
    rw [hsome]
    simp [hmiss]
  · intro tool e hsome hnomiss hfault
    unfold ToolRegistry.execute
    rw [hsome]
    simp [hnomiss, hfault]

/-- Tool used by the C4 witness: requires a "path" argument. -/
def c4ToolReader : Tool :=
  { name := "reader", ttype := ToolType.file, description := "reads a file",
    handler := fun _ => Except.ok (PyVal.vStr "content"), keywords := [],
    required_params := ["path"], metadata := [] }

/-- Tool used by the C4 witness: its handler always raises. -/
def c4ToolBoom : Tool :=
  { name := "boom", ttype := ToolType.system, description := "always raises",
    handler := fun _ => Except.error "kaput", keywords := [],
    required_params := [], metadata := [] }

/-- Claim C4, witness: the three failure shapes at concrete inputs — an
unregistered name, a missing required argument, and a raising handler. -/
theorem c4_witness :
    ((ToolRegistry.execute { tools := [], usage_history := [] }
        "websearch" [] 3 9).1).error = some "Tool websearch not found" ∧
    ((ToolRegistry.execute
        { tools := [("reader", c4ToolReader)], usage_history := [] }
        "reader" [] 3 9).1).error
      = some ("Missing params: " ++ pyListRepr ["path"]) ∧
    ((ToolRegistry.execute
        { tools := [("boom", c4ToolBoom)], usage_history := [] }
        "boom" [] 3 9).1)
      = { tool_name := "boom", success := false, output := PyVal.vNone,
          error := some "kaput", latency_ms := 3 } := by
  refine ⟨?_, ?_, ?_⟩
  · rw [(c4_theorem { tools := [], usage_history := [] }
      "websearch" [] 3 9).1 rfl]
    decide
  · rw [(c4_theorem { tools := [("reader", c4ToolReader)], usage_history := [] }
      "reader" [] 3 9).2.1 c4ToolReader rfl (by decide)]
    decide
  · exact (c4_theorem { tools := [("boom", c4ToolBoom)], usage_history := [] }
      "boom" [] 3 9).2.2 c4ToolBoom "kaput" rfl rfl rfl

/-! ## Claim C6 — usage history -/

/-- Claim C6, counterexample: invoking an unregistered capability appends
nothing to the rolling usage history (the early return precedes
`_log_usage`), refuting "exactly one entry is appended for every call". -/
theorem c6_counterexample :
    ((ToolRegistry.execute { tools := [], usage_history := [] }
        "websearch" [] 3 9).2).usage_history.length = 0 := rfl

/-- Claim C6 (amended): an entry is appended to the rolling usage history
exactly when the bound handler is actually invoked — on handler success
and on handler exception alike, carrying the capability name, the result's
success flag and the measured latency — while the unregistered-capability
and missing-required-arguments early returns leave the usage history
unchanged. -/
theorem c6_theorem (reg : ToolRegistry) (tool_name : String) (params : Ctx)
    (latency now : Nat) :
    (List.lookup tool_name reg.tools = none →
      ((ToolRegistry.execute reg tool_name params latency now).2).usage_history
        = reg.usage_history) ∧
    (∀ tool, List.lookup tool_name reg.tools = some tool →
      tool.required_params.filter (fun p => (dictLookup params p).isNone) ≠ [] →
      ((ToolRegistry.execute reg tool_name params latency now).2).usage_history
        = reg.usage_history) ∧
    (∀ tool, List.lookup tool_name reg.tools = some tool →
      tool.required_params.filter (fun p => (dictLookup params p).isNone) = [] →
      ((ToolRegistry.execute reg tool_name params latency now).2).usage_history
        = reg.usage_history ++
          [{ tool := tool_name,
             success := ((ToolRegistry.execute reg tool_name params latency now).1).success,
             latency_ms := latency,
             intel_optimized := metadataOptimized tool.metadata,
             timestamp := now }]) := by
  refine ⟨?_, ?_, ?_⟩
  · intro hnone
    unfold ToolRegistry.execute
    rw [hnone]
  · intro tool hsome hmiss
    unfold ToolRegistry.execute
    rw [hsome]
    simp [hmiss]
  · intro tool hsome hnomiss
    cases hh : tool.handler params with
    | ok output =>
      unfold ToolRegistry.execute
      rw [hsome]
      simp [hnomiss, hh, ToolRegistry.log_usage]
    | error e =>
      unfold ToolRegistry.execute
      rw [hsome]
      simp [hnomiss, hh, ToolRegistry.log_usage]

/-- Tool used by the C6 witness: a handler that succeeds. -/
def c6ToolEcho : Tool :=
  { name := "echo", ttype := ToolType.data, description := "echoes",
    handler := fun _ => Except.ok (PyVal.vStr "echoed"), keywords := [],
    required_params := [], metadata := [] }

/-- Claim C6, witness: an unregistered call leaves the history unchanged,
and a call that reaches the handler appends exactly its entry. -/
theorem c6_witness :
    ((ToolRegistry.execute { tools := [], usage_history := [] }
        "websearch" [] 3 9).2).usage_history = [] ∧
    ((ToolRegistry.execute { tools := [("echo", c6ToolEcho)], usage_history := [] }
        "echo" [] 3 9).2).usage_history
      = [] ++
        [{ tool := "echo",
           success := ((ToolRegistry.execute
             { tools := [("echo", c6ToolEcho)], usage_history := [] }
             "echo" [] 3 9).1).success,
           latency_ms := 3,
           intel_optimized := metadataOptimized c6ToolEcho.metadata,
           timestamp := 9 }] := by
  refine ⟨?_, ?_⟩
  · exact (c6_theorem { tools := [], usage_history := [] }
      "websearch" [] 3 9).1 rfl
  · exact (c6_theorem { tools := [("echo", c6ToolEcho)], usage_history := [] }
      "echo" [] 3 9).2.2 c6ToolEcho rfl rfl

/-! ## Claim C5 — controller execute -/

/-- Claim C5 (code bug): for every memory state, synthesis collaborator,
session id, timestamp, repository TaskFlow and initial input,
`AgentController.execute_workflow` raises
`AttributeError("name")` at its opening log line — the repository TaskFlow
owns no `name` attribute — before even opening a session; it never reaches
the structured `(session_id, "completed", output)` return the claim (and
the code's own final statement) promise. -/
theorem c5_theorem (mem : Memory) (synthesize : String → String)
    (session_id : String) (ts : Nat) (workflow : TaskFlow)
    (initial_input : String) :
    AgentController.execute_workflow mem synthesize session_id ts workflow
        initial_input
      = Except.error (PyError.attributeError "name") := rfl

/-! ## Claim C7 — session context retrieval -/

/-- Claim C7: for every memory state and session, the context mapping
returned by `Memory.get_session_context` is exactly described by
`lastResultFor`: each step id is bound to the result of the last record
for that id in the session whose result is non-null (a null-result record
neither contributes nor erases), and a step id is present in the mapping
precisely when the session has at least one record for it with a non-null
result. -/
theorem c7_theorem (m : Memory) (session_id step_id : String) :
    dictLookup (m.get_session_context session_id) step_id
      = lastResultFor (m.get_session_history session_id) step_id ∧
    ((dictLookup (m.get_session_context session_id) step_id).isSome
      ↔ ∃ e ∈ m.get_session_history session_id,
          e.task_id = step_id ∧ e.result.isSome) := by
  have h := dictLookup_foldl_record (m.get_session_history session_id) [] step_id
  have h1 : dictLookup (m.get_session_context session_id) step_id
      = lastResultFor (m.get_session_history session_id) step_id := by
    rw [Memory.get_session_context, h]
    cases lastResultFor (m.get_session_history session_id) step_id with
    | some v => rfl
    | none => simp [dictLookup]
  exact ⟨h1, by rw [h1]; exact lastResultFor_isSome _ _⟩

/-! ## Claim C9 — flow execution does not mutate the stored context -/

/-- The heap component of `TaskFlow.execute`, expressed over the caller's
heap. -/
theorem taskFlow_execute_heap (f : TaskFlow) (ex : Executor) (h : Heap) :
    (f.execute ex h).2
      = (match strategyExecute f.mode f.tasks ex (h.get f.contextRef) with
         | Except.ok results =>
           ((h.alloc (h.get f.contextRef)).1).set
             ((h.alloc (h.get f.contextRef)).2) results.2
         | Except.error _ => (h.alloc (h.get f.contextRef)).1) := by
  show (match strategyExecute f.mode f.tasks ex
      ((h.alloc (h.get f.contextRef)).1.get (h.alloc (h.get f.contextRef)).2) with
    | Except.ok results =>
      ((Except.ok results.1 : Except PyError (List TaskResult)),
        (h.alloc (h.get f.contextRef)).1.set (h.alloc (h.get f.contextRef)).2 results.2)
    | Except.error e => (Except.error e, (h.alloc (h.get f.contextRef)).1)).2
    = _
  rw [heap_get_alloc_self]
  cases strategyExecute f.mode f.tasks ex (h.get f.contextRef) with
  | ok results => rfl
  | error e => rfl

/-- Claim C9: executing a flow leaves the flow's stored context dict
untouched (the strategy mutates only the freshly allocated
`self.context.copy()` cell), and repeated executions are independent —
re-executing on the post-execution heap returns the same results. -/
theorem c9_theorem (f : TaskFlow) (ex : Executor) (h : Heap)
    (hval : f.contextRef < h.dicts.length) :
    Heap.get ((f.execute ex h).2) f.contextRef = Heap.get h f.contextRef ∧
    (f.execute ex ((f.execute ex h).2)).1 = (f.execute ex h).1 := by
  have hne : f.contextRef ≠ (h.alloc (h.get f.contextRef)).2 :=
    Nat.ne_of_lt hval
  have hframe : Heap.get ((f.execute ex h).2) f.contextRef
      = Heap.get h f.contextRef := by
    rw [taskFlow_execute_heap]
    cases strategyExecute f.mode f.tasks ex (h.get f.contextRef) with
    | ok results =>
      rw [heap_get_set_ne _ _ _ _ hne, heap_get_alloc_lt h _ _ hval]
    | error e =>
      exact heap_get_alloc_lt h _ _ hval
  refine ⟨hframe, ?_⟩
  rw [taskFlow_execute_results f ex ((f.execute ex h).2),
    taskFlow_execute_results f ex h, hframe]

/-- Claim C9, witness: a sequential one-task flow over a one-cell heap. -/
theorem c9_witness :
    Heap.get
        ((TaskFlow.execute
            { mode := ExecutionMode.sequential,
              tasks := [{ id := "t1", action := "a", params := [],
                          dependencies := [], on_success := none,
                          on_failure := none }],
              contextRef := 0 }
            (fun _ _ => { task_id := "", success := true,
                          output := PyVal.vStr "out", error := none })
            { dicts := [[("k", PyVal.vNat 1)]] }).2) 0
      = Heap.get { dicts := [[("k", PyVal.vNat 1)]] } 0 ∧
    (TaskFlow.execute
        { mode := ExecutionMode.sequential,
          tasks := [{ id := "t1", action := "a", params := [],
                      dependencies := [], on_success := none,
                      on_failure := none }],
          contextRef := 0 }
        (fun _ _ => { task_id := "", success := true,
                      output := PyVal.vStr "out", error := none })
        ((TaskFlow.execute
            { mode := ExecutionMode.sequential,
              tasks := [{ id := "t1", action := "a", params := [],
                          dependencies := [], on_success := none,
                          on_failure := none }],
              contextRef := 0 }
            (fun _ _ => { task_id := "", success := true,
                          output := PyVal.vStr "out", error := none })
            { dicts := [[("k", PyVal.vNat 1)]] }).2)).1
      = (TaskFlow.execute
          { mode := ExecutionMode.sequential,
            tasks := [{ id := "t1", action := "a", params := [],
                        dependencies := [], on_success := none,
                        on_failure := none }],
            contextRef := 0 }
          (fun _ _ => { task_id := "", success := true,
                        output := PyVal.vStr "out", error := none })
          { dicts := [[("k", PyVal.vNat 1)]] }).1 :=
  c9_theorem _ _ _ (by decide)

end Agent
